import Mathlib

/-!
# Analytics service: ingestion, queue consumer and reporting

A shallow embedding of the four source files

* `src/ingestion.js`  (`validateEvent`, the `POST /event` handler),
* `src/worker.js`     (`processLoop`),
* `src/reporting.js`  (the `GET /stats` handler),
* `src/models/event.js` (`EventSchema`),

together with the fragment of JavaScript they rely on: truthiness, `||`,
`String(...)`, property reads, `Date.prototype.toISOString` and
`String.prototype.slice`.

`JSON.stringify`, `JSON.parse`, the `Date` constructor, the outcome of the
Redis `RPUSH` and of the Mongoose `Event.create` are library or environment
behaviour; they are parameters of the definitions that use them.
-/

namespace Analytics

/-! ## JavaScript values -/

/-- The exceptions the modelled fragment of JavaScript can raise. -/
inductive JSError where
  | typeError
  | rangeError
deriving DecidableEq, Repr

/-- A JavaScript number, represented by the text `Number::toString` gives for it
(`"0"` for both zeros, `"NaN"`, `"Infinity"`, `"1.5"`, `"1e+21"`, ...). The program only
tests numbers for truthiness and converts them to text, and that text is never empty. -/
structure JSNumber where
  text : String
  text_ne : text ≠ ""

mutual
/-- The values a decoded JSON document can hold, plus `undefined` for a property that
is not there. An object is the list of its own properties. -/
inductive JSValue where
  | undefined
  | null
  | bool (b : Bool)
  | num (n : JSNumber)
  | str (s : String)
  | arr (elems : JSList)
  | obj (fields : List (String × JSValue))
/-- The elements of an array value. -/
inductive JSList where
  | nil
  | cons (head : JSValue) (tail : JSList)
end

/-- An object given by its own properties: the decoded request body, the event object. -/
abbrev JSObject := List (String × JSValue)

namespace JSValue

/-- The conversion `ToBoolean`: what `!v`, `if (v)` and `v || w` test. The falsy values
are `undefined`, `null`, `false`, the zeros and `NaN`, and the empty string. -/
def truthy : JSValue → Bool
  | undefined => false
  | null => false
  | bool b => b
  | num n => !(n.text == "0" || n.text == "NaN")
  | str s => !(s == "")
  | arr _ => true
  | obj _ => true

/-- The expression `a || b`. -/
def or (a b : JSValue) : JSValue :=
  if a.truthy then a else b

end JSValue

/-- Whether an object has an own property `k`. -/
def hasKey (k : String) : JSObject → Bool
  | [] => false
  | (k', _) :: rest => k' == k || hasKey k rest

/-- The property read `o.k` on an object decoded from JSON, for a name `k` that
`Object.prototype` does not define: the own property, or `undefined`. -/
def lookup (k : String) : JSObject → JSValue
  | [] => .undefined
  | (k', v) :: rest => if k' == k then v else lookup k rest

namespace JSValue

mutual
/-- The call `String(v)`. An array is joined with commas, `null` and `undefined`
elements giving the empty text. A plain object gives `[object Object]`, unless it has an
own `toString` property: decoded from JSON that property is not callable, the inherited
`valueOf` returns the object itself, and the conversion throws a `TypeError`. -/
def toJSString : JSValue → Except JSError String
  | undefined => .ok "undefined"
  | null => .ok "null"
  | bool true => .ok "true"
  | bool false => .ok "false"
  | num n => .ok n.text
  | str s => .ok s
  | arr elems => joinElems elems
  | obj fields => if hasKey "toString" fields then .error .typeError else .ok "[object Object]"
/-- The method `Array.prototype.join` with the default separator. -/
def joinElems : JSList → Except JSError String
  | .nil => .ok ""
  | .cons undefined .nil => .ok ""
  | .cons null .nil => .ok ""
  | .cons v .nil => toJSString v
  | .cons v rest => do
      let s ← (match v with
               | undefined => (.ok "" : Except JSError String)
               | null => .ok ""
               | w => toJSString w)
      let t ← joinElems rest
      pure (s ++ "," ++ t)
end

/-- The property read `v.k` for the property names this program uses (none of them is
defined on a prototype): it throws on `null` and `undefined`, reads the own property of an
object and is `undefined` on every other value. -/
def getProp (v : JSValue) (k : String) : Except JSError JSValue :=
  match v with
  | undefined => .error .typeError
  | null => .error .typeError
  | obj fields => .ok (lookup k fields)
  | _ => .ok undefined

end JSValue

open JSValue

/-! ## `src/ingestion.js` -/

/-- The function `validateEvent` of `src/ingestion.js`; `none` is its `null`. -/
def validateEvent (body : JSObject) : Option String :=
  if !(lookup "site_id" body).truthy then some "site_id is required"
  else if !(lookup "event_type" body).truthy then some "event_type is required"
  else if !(lookup "timestamp" body).truthy then some "timestamp is required"
  else none

/-- The object literal `event` of the `POST /event` handler. -/
def buildEvent (body : JSObject) : Except JSError JSObject := do
  let site_id ← toJSString (lookup "site_id" body)
  let event_type ← toJSString (lookup "event_type" body)
  pure [("site_id", .str site_id),
        ("event_type", .str event_type),
        ("path", (lookup "path" body).or (.str "/")),
        ("user_id", (lookup "user_id" body).or .null),
        ("timestamp", lookup "timestamp" body)]

/-- An HTTP response: status code and JSON body. -/
structure Response where
  status : Nat
  body : JSObject

/-- How a handler call ends: with a response, or with an exception thrown out of it. -/
inductive Outcome where
  | responded (r : Response)
  | threw (e : JSError)

/-- The queue after a `POST /event` call, and how the call ended. -/
structure PostResult where
  queue : List String
  outcome : Outcome

/-- The `POST /event` handler on the decoded JSON body. The queue is the Redis list
`analytics:events`, its tail at the end of the list; `stringify` is `JSON.stringify` and
`rpushOk` tells whether the `RPUSH` succeeds. An exception thrown while `event` is built
leaves the handler before anything is appended or sent. -/
def postEvent (stringify : JSValue → String) (rpushOk : Bool) (body : JSObject)
    (queue : List String) : PostResult :=
  match validateEvent body with
  | some err => ⟨queue, .responded ⟨400, [("error", .str err)]⟩⟩
  | none =>
    match buildEvent body with
    | .error e => ⟨queue, .threw e⟩
    | .ok event =>
      if rpushOk then
        ⟨queue ++ [stringify (.obj event)], .responded ⟨202, [("status", .str "accepted")]⟩⟩
      else
        ⟨queue, .responded ⟨500, [("error", .str "queue_error")]⟩⟩

/-- The required fields, in the order the specification lists them. -/
def requiredFields : List String := ["site_id", "event_type", "timestamp"]

/-- The first required field, in the specification's order, whose value is missing
(absent, null or otherwise falsy). -/
def firstMissing (body : JSObject) : Option String :=
  requiredFields.find? (fun f => !(lookup f body).truthy)

/-! ## Dates: the time value, its calendar fields and `toISOString` -/

/-- A `Date` object: its time value in milliseconds since the epoch, `none` for an
invalid date (time value `NaN`). -/
abbrev JSDate := Option Int

def msPerDay : Int := 86400000

/-- The day number of a time value (floor division). -/
def Day (t : Int) : Int := t / msPerDay

/-- The day number of the first day of year `y`. -/
def DayFromYear (y : Int) : Int :=
  365 * (y - 1970) + (y - 1969) / 4 - (y - 1901) / 100 + (y - 1601) / 400

/-- The number of days in year `y` of the proleptic Gregorian calendar. -/
def DaysInYear (y : Int) : Int :=
  if y % 4 ≠ 0 then 365 else if y % 100 ≠ 0 then 366 else if y % 400 ≠ 0 then 365 else 366

/-- The year a time value falls in: the largest `y` whose first day is not after the
day of `t`, found from an estimate that is off by at most one. -/
def YearFromTime (t : Int) : Int :=
  let d := Day t
  let y := 1970 + d * 400 / 146097
  if d < DayFromYear y then y - 1 else if DayFromYear (y + 1) ≤ d then y + 1 else y

/-- One in a leap year, zero otherwise. -/
def InLeapYear (t : Int) : Int :=
  if DaysInYear (YearFromTime t) = 366 then 1 else 0

def DayWithinYear (t : Int) : Int := Day t - DayFromYear (YearFromTime t)

/-- The month of a time value, 0 for January to 11 for December. -/
def MonthFromTime (t : Int) : Int :=
  let d := DayWithinYear t
  let l := InLeapYear t
  if d < 31 then 0
  else if d < 59 + l then 1
  else if d < 90 + l then 2
  else if d < 120 + l then 3
  else if d < 151 + l then 4
  else if d < 181 + l then 5
  else if d < 212 + l then 6
  else if d < 243 + l then 7
  else if d < 273 + l then 8
  else if d < 304 + l then 9
  else if d < 334 + l then 10
  else 11

/-- The day of the month of a time value, from 1. -/
def DateFromTime (t : Int) : Int :=
  let d := DayWithinYear t
  let l := InLeapYear t
  match MonthFromTime t with
  | 0 => d + 1
  | 1 => d - 30
  | 2 => d - 58 - l
  | 3 => d - 89 - l
  | 4 => d - 119 - l
  | 5 => d - 150 - l
  | 6 => d - 180 - l
  | 7 => d - 211 - l
  | 8 => d - 242 - l
  | 9 => d - 272 - l
  | 10 => d - 303 - l
  | _ => d - 333 - l

def HourFromTime (t : Int) : Int := t / 3600000 % 24
def MinFromTime (t : Int) : Int := t / 60000 % 60
def SecFromTime (t : Int) : Int := t / 1000 % 60
def msFromTime (t : Int) : Int := t % 1000

/-- The decimal digit `d` as a character. -/
def digitChar (d : Nat) : Char := Char.ofNat (48 + d % 10)

/-- The last `width` decimal digits of `n`, zero padded. -/
def digits : Nat → Nat → List Char
  | 0, _ => []
  | width + 1, n => digits width (n / 10) ++ [digitChar n]

/-- The year of an ISO date-time: four digits from 0 to 9999, otherwise the expanded
form, a sign followed by six digits. -/
def yearChars (y : Int) : List Char :=
  if 0 ≤ y ∧ y ≤ 9999 then digits 4 y.toNat
  else (if 0 ≤ y then '+' else '-') :: digits 6 y.natAbs

/-- The characters of `YYYY-MM-DDTHH:mm:ss.sssZ` for a time value. -/
def isoChars (t : Int) : List Char :=
  yearChars (YearFromTime t) ++ ['-'] ++ digits 2 (MonthFromTime t + 1).toNat ++ ['-'] ++
    digits 2 (DateFromTime t).toNat ++ ['T'] ++ digits 2 (HourFromTime t).toNat ++ [':'] ++
    digits 2 (MinFromTime t).toNat ++ [':'] ++ digits 2 (SecFromTime t).toNat ++ ['.'] ++
    digits 3 (msFromTime t).toNat ++ ['Z']

/-- The method `Date.prototype.toISOString`: a `RangeError` on an invalid date. -/
def toISOString : JSDate → Except JSError String
  | none => .error .rangeError
  | some t => .ok (String.mk (isoChars t))

/-- The method `String.prototype.slice` for `0 ≤ a ≤ b`, on text without surrogate pairs. -/
def slice (s : String) (a b : Nat) : String :=
  String.mk ((s.data.drop a).take (b - a))

/-! ## `src/worker.js` -/

/-- The object literal `doc` that `processLoop` hands to `Event.create`. -/
structure Doc where
  site_id : JSValue
  event_type : JSValue
  path : JSValue
  user_id : JSValue
  timestamp : JSDate
  date : String

/-- The lines of `processLoop` between the JSON decoding and `Event.create`: they derive
`timestamp` and `date` and build `doc`. `newDate` is the constructor `new Date(v)`. -/
def prepareDoc (newDate : JSValue → Except JSError JSDate) (data : JSValue) :
    Except JSError Doc := do
  let ts ← data.getProp "timestamp"
  let timestamp ← newDate ts
  let iso ← toISOString timestamp
  let date := slice iso 0 10
  let site_id ← data.getProp "site_id"
  let event_type ← data.getProp "event_type"
  let path ← data.getProp "path"
  let user_id ← data.getProp "user_id"
  pure { site_id := site_id,
         event_type := event_type,
         path := path.or (.str "/"),
         user_id := user_id.or .null,
         timestamp := timestamp,
         date := date }

/-- What the consumer has done so far: the documents inserted into the store, in order,
the number of one-second error pauses taken and the number of `Event.create` calls. -/
structure WorkerState where
  store : List Doc
  backoffs : Nat
  creates : Nat

/-- The library and environment of the consumer: `JSON.parse` (`none` when it throws),
the `Date` constructor, and whether the `n`-th call of `Event.create` succeeds. -/
structure WorkerEnv where
  parse : String → Option JSValue
  newDate : JSValue → Except JSError JSDate
  createOk : Nat → Doc → Bool

/-- The body of the `while` loop after `BLPOP` has returned the payload `raw`. -/
def handle (env : WorkerEnv) (raw : String) (s : WorkerState) : WorkerState :=
  match env.parse raw with
  | none => s
  | some data =>
    match prepareDoc env.newDate data with
    | .error _ => { s with backoffs := s.backoffs + 1 }
    | .ok doc =>
      if env.createOk s.creates doc then
        { s with store := s.store ++ [doc], creates := s.creates + 1 }
      else
        { s with backoffs := s.backoffs + 1, creates := s.creates + 1 }

/-- One pass of the `while` loop on a queue and a state: `BLPOP` removes the head of the
queue and the body runs on it; `none` when the queue is empty and `BLPOP` blocks. -/
def iteration (env : WorkerEnv) : List String × WorkerState → Option (List String × WorkerState)
  | ([], _) => none
  | (raw :: rest, s) => some (rest, handle env raw s)

/-- The function `processLoop` run on a queue to which nothing more is appended: the
state in which it blocks on the empty queue. -/
def processLoop (env : WorkerEnv) : List String → WorkerState → WorkerState
  | [], s => s
  | raw :: rest, s => processLoop env rest (handle env raw s)

/-! ## `src/models/event.js` and `src/reporting.js` -/

/-- A stored document of the `Event` model, its fields typed by `EventSchema`; `none` is
a field that is null or absent. -/
structure EventRecord where
  site_id : String
  event_type : String
  path : Option String
  user_id : Option String
  timestamp : Int
  date : Option String

/-- The filter `match` of the `GET /stats` handler. -/
structure Match where
  site_id : String
  date : Option String

/-- Whether a stored document satisfies the filter: equality on each field present. -/
def Match.matches (m : Match) (r : EventRecord) : Bool :=
  r.site_id == m.site_id &&
    (match m.date with
     | none => true
     | some d => r.date == some d)

/-- The query `Event.countDocuments(match)`. -/
def countDocuments (m : Match) (store : List EventRecord) : Nat :=
  (store.filter m.matches).length

/-- The promise `totalViewsPromise`. -/
def totalViewsPromise (m : Match) (store : List EventRecord) : Nat :=
  countDocuments m store

/-- The query `Event.distinct('user_id', match)`: the distinct values of the field. -/
def distinctUserIds (m : Match) (store : List EventRecord) : List (Option String) :=
  ((store.filter m.matches).map (fun r => r.user_id)).dedup

/-- The promise `uniqueUsersPromise`: the distinct values that are neither `null` nor
`undefined` are counted. -/
def uniqueUsersPromise (m : Match) (store : List EventRecord) : Nat :=
  ((distinctUserIds m store).filter (fun u => u != none)).length

/-- An entry of `top_paths`. -/
structure PathViews where
  path : Option String
  views : Nat
deriving DecidableEq, Repr

/-- The stage `$group` by `path` with `views: { $sum: 1 }`. The store emits the groups
in an order of its own, here by the rank `tie` gives to the keys. -/
def groupByPath (tie : Option String → Nat) (rs : List EventRecord) : List PathViews :=
  let paths := rs.map (fun r => r.path)
  (paths.dedup.map (fun p => (⟨p, paths.count p⟩ : PathViews))).insertionSort
    (fun a b => tie a.path ≤ tie b.path)

/-- The stage `$sort` by `views` descending; groups with equal views keep the order
they arrive in. -/
def sortByViewsDesc (gs : List PathViews) : List PathViews :=
  gs.insertionSort (fun a b => a.views ≥ b.views)

/-- The aggregation pipeline of `topPathsPromise`: `$match`, `$group`, `$sort`,
`$limit: 10`, and `$project` renaming the group key to `path`. -/
def topPathsPromise (tie : Option String → Nat) (m : Match) (store : List EventRecord) :
    List PathViews :=
  (sortByViewsDesc (groupByPath tie (store.filter m.matches))).take 10

/-- The JSON body of a successful `GET /stats` response. -/
structure StatsBody where
  site_id : String
  date : Option String
  total_views : Nat
  unique_users : Nat
  top_paths : List PathViews

/-- The response of `GET /stats`. -/
inductive StatsResponse where
  | json (status : Nat) (body : StatsBody)
  | error (status : Nat) (error : String)

/-- A query parameter, present or not, is truthy when it is a non-empty string. -/
def paramTruthy : Option String → Bool
  | none => false
  | some s => !(s == "")

/-- The `GET /stats` handler on the query parameters `site_id` and `date` (each absent or
a string) and the stored documents; `storeOk` tells whether the three queries succeed. -/
def getStats (storeOk : Bool) (tie : Option String → Nat) (site_id date : Option String)
    (store : List EventRecord) : StatsResponse :=
  match site_id with
  | none => .error 400 "site_id is required"
  | some site =>
    if site == "" then .error 400 "site_id is required"
    else
      let m : Match := { site_id := site, date := if paramTruthy date then date else none }
      if storeOk then
        .json 200 { site_id := site,
                    date := if paramTruthy date then date else none,
                    total_views := totalViewsPromise m store,
                    unique_users := uniqueUsersPromise m store,
                    top_paths := topPathsPromise tie m store }
      else .error 500 "internal_error"

/-! ## Definitions used to state the properties -/

/-- The document the consumer derives from a payload, if the payload decodes and the
derivation does not throw. -/
def docOf (env : WorkerEnv) (raw : String) : Option Doc :=
  match env.parse raw with
  | none => none
  | some data =>
    match prepareDoc env.newDate data with
    | .error _ => none
    | .ok doc => some doc

/-- The format `YYYY-MM-DD`: ten characters, digits except for the two hyphens. -/
def isYYYYMMDD (s : String) : Bool :=
  match s.data with
  | [y1, y2, y3, y4, h1, m1, m2, h2, d1, d2] =>
    y1.isDigit && y2.isDigit && y3.isDigit && y4.isDigit && h1 == '-' &&
      m1.isDigit && m2.isDigit && h2 == '-' && d1.isDigit && d2.isDigit
  | _ => false

/-- The number of days in month `m` (0 for January) of year `y`. -/
def daysInMonth (y m : Int) : Int :=
  if m = 1 then (if DaysInYear y = 366 then 29 else 28)
  else if m = 3 ∨ m = 5 ∨ m = 8 ∨ m = 10 then 30
  else 31

/-- The number of days of year `y` before its month `m` (0 for January). -/
def daysBeforeMonth (y : Int) : Nat → Int
  | 0 => 0
  | m + 1 => daysBeforeMonth y m + daysInMonth y m

/-- The stored records a `GET /stats` request is about: those whose `site_id` equals the
requested one and, when a date is supplied (the parameter present and not empty), whose
`date` equals the supplied one. -/
def matchingRecords (site : String) (date : Option String) (store : List EventRecord) :
    List EventRecord :=
  store.filter (fun r =>
    decide (r.site_id = site) &&
      (match date with
       | none => true
       | some d => if d = "" then true else decide (r.date = some d)))

/-! ## Sample inputs -/

/-- The request body of the scenario in the specification. -/
def pageviewBody : JSObject :=
  [("site_id", .str "s1"), ("event_type", .str "pageview"),
   ("timestamp", .str "2025-11-12T10:00:00Z")]

/-- The event object the handler builds from `pageviewBody`. -/
def pageviewEvent : JSObject :=
  [("site_id", .str "s1"), ("event_type", .str "pageview"), ("path", .str "/"),
   ("user_id", .null), ("timestamp", .str "2025-11-12T10:00:00Z")]

/-- A second valid request body, of site `s2`. -/
def clickBody : JSObject :=
  [("site_id", .str "s2"), ("event_type", .str "click"),
   ("timestamp", .str "2025-11-12T10:00:00Z"), ("path", .str "/a"), ("user_id", .str "u1")]

/-- The event object the handler builds from `clickBody`. -/
def clickEvent : JSObject :=
  [("site_id", .str "s2"), ("event_type", .str "click"), ("path", .str "/a"),
   ("user_id", .str "u1"), ("timestamp", .str "2025-11-12T10:00:00Z")]

/-- A request body without `event_type`. -/
def missingEventTypeBody : JSObject :=
  [("site_id", .str "s1"), ("timestamp", .str "2025-11-12T10:00:00Z")]

/-- A valid request body whose `path` and `user_id` are present and empty. -/
def emptyPathBody : JSObject :=
  [("site_id", .str "s1"), ("event_type", .str "pageview"),
   ("timestamp", .str "2025-11-12T10:00:00Z"), ("path", .str ""), ("user_id", .str "")]

/-- A request body whose `site_id` is an object with an own `toString` property. -/
def toStringBody : JSObject :=
  [("site_id", .obj [("toString", .bool true)]), ("event_type", .str "pageview"),
   ("timestamp", .str "2025-11-12T10:00:00Z")]

/-- A request body whose `site_id` is the empty array. -/
def emptyArrayBody : JSObject :=
  [("site_id", .arr .nil), ("event_type", .str "pageview"),
   ("timestamp", .str "2025-11-12T10:00:00Z")]

/-- A queued event of the year 10000. -/
def year10000Event : JSObject :=
  [("site_id", .str "s1"), ("event_type", .str "pageview"), ("path", .str "/"),
   ("user_id", .null), ("timestamp", .str "+010000-01-01T00:00:00.000Z")]

/-- A queued event whose timestamp is an object with an own `toString` property. -/
def objectTimestampEvent : JSObject :=
  [("site_id", .str "s1"), ("event_type", .str "pageview"), ("path", .str "/"),
   ("user_id", .null), ("timestamp", .obj [("toString", .bool true)])]

/-- A queued event whose timestamp is not a date. -/
def badTimestampEvent : JSObject :=
  [("site_id", .str "s1"), ("event_type", .str "pageview"), ("path", .str "/"),
   ("user_id", .null), ("timestamp", .str "not-a-date")]

/-- A serializer for the sample run: it names the payload of an event after its site. -/
def sampleStringify : JSValue → String
  | .obj fields =>
    match lookup "site_id" fields with
    | .str "s1" => "A"
    | _ => "B"
  | _ => ""

/-- The decoder of the sample run: six payloads decode, every other text is malformed. -/
def sampleParse (raw : String) : Option JSValue :=
  if raw = "A" then some (.obj pageviewEvent)
  else if raw = "B" then some (.obj clickEvent)
  else if raw = "Y10K" then some (.obj year10000Event)
  else if raw = "BAD-TIME" then some (.obj badTimestampEvent)
  else if raw = "OBJ-TIME" then some (.obj objectTimestampEvent)
  else if raw = "NULL" then some .null
  else none

/-- The `Date` constructor on the timestamps of the sample run: two ISO texts with
their time values; an object with an own `toString` property cannot be converted to a
primitive and the constructor throws a `TypeError`; anything else is an invalid date. -/
def sampleNewDate : JSValue → Except JSError JSDate
  | .str s =>
    if s = "2025-11-12T10:00:00Z" then .ok (some 1762941600000)
    else if s = "+010000-01-01T00:00:00.000Z" then .ok (some 253402300800000)
    else .ok none
  | .obj fields => if hasKey "toString" fields then .error .typeError else .ok none
  | _ => .ok none

/-- The environment of the sample run; every `Event.create` succeeds. -/
def sampleEnv : WorkerEnv :=
  { parse := sampleParse, newDate := sampleNewDate, createOk := fun _ _ => true }

/-- The document derived from `pageviewEvent`. -/
def pageviewDoc : Doc :=
  { site_id := .str "s1", event_type := .str "pageview", path := .str "/", user_id := .null,
    timestamp := some 1762941600000, date := "2025-11-12" }

/-- The document derived from `clickEvent`. -/
def clickDoc : Doc :=
  { site_id := .str "s2", event_type := .str "click", path := .str "/a", user_id := .str "u1",
    timestamp := some 1762941600000, date := "2025-11-12" }

/-- Stored page views of site `s1` on 2025-11-12 with the given user ids, path `/`. -/
def viewsByUsers (users : List (Option String)) : List EventRecord :=
  users.map (fun u => ⟨"s1", "pageview", some "/", u, 1762941600000, some "2025-11-12"⟩)

/-- Stored anonymous page views of site `s1` on 2025-11-12 with the given paths. -/
def viewsOfPaths (paths : List String) : List EventRecord :=
  paths.map (fun p => ⟨"s1", "pageview", some p, none, 1762941600000, some "2025-11-12"⟩)

/-- The group of the worked example that has the given number of views. -/
def exampleGroup (views : Nat) : PathViews :=
  if views = 3 then ⟨some "/a", 3⟩ else if views = 2 then ⟨some "/b", 2⟩ else ⟨some "/c", 1⟩

/-! # Theorems -/

/-! ## Ingestion: validation and normalisation -/

theorem lookup_of_hasKey_false (k : String) (o : JSObject) (h : hasKey k o = false) :
    lookup k o = .undefined := by
  induction o with
  | nil => rfl
  | cons kv rest ih =>
    obtain ⟨k', v⟩ := kv
    simp only [hasKey, Bool.or_eq_false_iff] at h
    simp [lookup, h.1, ih h.2]

theorem validateEvent_eq_none_iff (b : JSObject) :
    validateEvent b = none ↔ ∀ g ∈ requiredFields, (lookup g b).truthy = true := by
  unfold validateEvent requiredFields
  cases h1 : (lookup "site_id" b).truthy <;> cases h2 : (lookup "event_type" b).truthy <;>
    cases h3 : (lookup "timestamp" b).truthy <;> simp [h1, h2, h3]

theorem validateEvent_eq_firstMissing (b : JSObject) :
    validateEvent b = (firstMissing b).map (fun f => f ++ " is required") := by
  unfold validateEvent firstMissing requiredFields
  cases h1 : (lookup "site_id" b).truthy <;> cases h2 : (lookup "event_type" b).truthy <;>
    cases h3 : (lookup "timestamp" b).truthy <;> simp [List.find?, h1, h2, h3]

theorem firstMissing_isSome (b : JSObject)
    (h : ∃ f ∈ requiredFields, (lookup f b).truthy = false) : ∃ f, firstMissing b = some f := by
  obtain ⟨f, hf, hfalse⟩ := h
  cases hfm : firstMissing b with
  | some g => exact ⟨g, rfl⟩
  | none =>
    unfold firstMissing at hfm
    rw [List.find?_eq_none] at hfm
    have := hfm f hf
    simp [hfalse] at this

/-- Claim C1: when at least one of `site_id`, `event_type`, `timestamp` is missing (absent,
null or otherwise falsy), `validateEvent` returns `<field> is required` for the first missing
field in that order, and the `POST /event` handler leaves the queue as it is and responds 400
with that error; `validateEvent` returns null exactly when all three are present. -/
theorem postEvent_rejects_missing_field (stringify : JSValue → String) (rpushOk : Bool)
    (body : JSObject) (queue : List String)
    (h : ∃ f ∈ requiredFields, (lookup f body).truthy = false) :
    ∃ f, firstMissing body = some f ∧
      validateEvent body = some (f ++ " is required") ∧
      postEvent stringify rpushOk body queue =
        ⟨queue, .responded ⟨400, [("error", .str (f ++ " is required"))]⟩⟩ ∧
      (∀ b, validateEvent b = none ↔ ∀ g ∈ requiredFields, (lookup g b).truthy = true) := by
  obtain ⟨f, hf⟩ := firstMissing_isSome body h
  have hv : validateEvent body = some (f ++ " is required") := by
    rw [validateEvent_eq_firstMissing, hf]; rfl
  refine ⟨f, hf, hv, ?_, validateEvent_eq_none_iff⟩
  simp [postEvent, hv]

theorem postEvent_rejects_missing_field_witness :
    (∃ f ∈ requiredFields, (lookup f missingEventTypeBody).truthy = false) ∧
    ∃ f, firstMissing missingEventTypeBody = some f ∧
      validateEvent missingEventTypeBody = some (f ++ " is required") ∧
      postEvent sampleStringify true missingEventTypeBody ["A"] =
        ⟨["A"], .responded ⟨400, [("error", .str (f ++ " is required"))]⟩⟩ ∧
      (∀ b, validateEvent b = none ↔ ∀ g ∈ requiredFields, (lookup g b).truthy = true) :=
  ⟨⟨"event_type", by decide, rfl⟩,
   postEvent_rejects_missing_field sampleStringify true missingEventTypeBody ["A"]
     ⟨"event_type", by decide, rfl⟩⟩

theorem buildEvent_of_strings (body : JSObject) (s e : String)
    (hs : toJSString (lookup "site_id" body) = .ok s)
    (he : toJSString (lookup "event_type" body) = .ok e) :
    buildEvent body = .ok
      [("site_id", .str s), ("event_type", .str e),
       ("path", (lookup "path" body).or (.str "/")),
       ("user_id", (lookup "user_id" body).or .null),
       ("timestamp", lookup "timestamp" body)] := by
  simp only [buildEvent, hs, he]; rfl

/-- Claim C2, as amended: for a body that passes validation and whose `site_id` and
`event_type` convert to text, with the append succeeding, the handler appends exactly one
item at the tail and responds 202 accepted; the item serializes an event whose `site_id` and
`event_type` are those texts, whose `timestamp` is the submitted value, whose `path` is the
submitted one when it is truthy and `/` otherwise, and whose `user_id` is the submitted one
when it is truthy and null otherwise. In particular an absent `path` gives `/` and an absent
`user_id` gives null. -/
theorem postEvent_accepts_valid (stringify : JSValue → String) (body : JSObject)
    (queue : List String) (s e : String)
    (hv : validateEvent body = none)
    (hs : toJSString (lookup "site_id" body) = .ok s)
    (he : toJSString (lookup "event_type" body) = .ok e) :
    ∃ event : JSObject,
      postEvent stringify true body queue =
        ⟨queue ++ [stringify (.obj event)], .responded ⟨202, [("status", .str "accepted")]⟩⟩ ∧
      lookup "site_id" event = .str s ∧
      lookup "event_type" event = .str e ∧
      lookup "timestamp" event = lookup "timestamp" body ∧
      lookup "path" event =
        (if (lookup "path" body).truthy then lookup "path" body else .str "/") ∧
      lookup "user_id" event =
        (if (lookup "user_id" body).truthy then lookup "user_id" body else .null) ∧
      (hasKey "path" body = false → lookup "path" event = .str "/") ∧
      (hasKey "user_id" body = false → lookup "user_id" event = .null) := by
  refine ⟨[("site_id", .str s), ("event_type", .str e),
       ("path", (lookup "path" body).or (.str "/")),
       ("user_id", (lookup "user_id" body).or .null),
       ("timestamp", lookup "timestamp" body)], ?_, ?_, ?_, ?_, ?_, ?_, ?_, ?_⟩
  · simp only [postEvent, hv, buildEvent_of_strings body s e hs he, if_true]
  · rfl
  · rfl
  · rfl
  · rfl
  · rfl
  · intro h
    simp [lookup, lookup_of_hasKey_false _ _ h, JSValue.or, truthy]
  · intro h
    simp [lookup, lookup_of_hasKey_false _ _ h, JSValue.or, truthy]

theorem postEvent_accepts_valid_witness :
    validateEvent clickBody = none ∧
    toJSString (lookup "site_id" clickBody) = .ok "s2" ∧
    toJSString (lookup "event_type" clickBody) = .ok "click" ∧
    ∃ event : JSObject,
      postEvent sampleStringify true clickBody ["A"] =
        ⟨["A"] ++ [sampleStringify (.obj event)],
          .responded ⟨202, [("status", .str "accepted")]⟩⟩ ∧
      lookup "site_id" event = .str "s2" ∧
      lookup "event_type" event = .str "click" ∧
      lookup "timestamp" event = lookup "timestamp" clickBody ∧
      lookup "path" event =
        (if (lookup "path" clickBody).truthy then lookup "path" clickBody else .str "/") ∧
      lookup "user_id" event =
        (if (lookup "user_id" clickBody).truthy then lookup "user_id" clickBody else .null) ∧
      (hasKey "path" clickBody = false → lookup "path" event = .str "/") ∧
      (hasKey "user_id" clickBody = false → lookup "user_id" event = .null) :=
  ⟨rfl, rfl, rfl, postEvent_accepts_valid sampleStringify clickBody ["A"] "s2" "click" rfl rfl rfl⟩

/-- Claim C2 fails as stated: in `emptyPathBody` the fields `path` and `user_id` are
present with the empty string as value, the body passes validation, and the event the
handler enqueues has `path` equal to `/` and `user_id` equal to null instead of the
submitted values. And `toStringBody` passes validation, yet the handler appends nothing and
sends no response: `String(body.site_id)` throws. -/
theorem postEvent_falsy_path_counterexample :
    validateEvent emptyPathBody = none ∧
    hasKey "path" emptyPathBody = true ∧ lookup "path" emptyPathBody = .str "" ∧
    hasKey "user_id" emptyPathBody = true ∧ lookup "user_id" emptyPathBody = .str "" ∧
    (∀ (stringify : JSValue → String) (queue : List String),
      postEvent stringify true emptyPathBody queue =
        ⟨queue ++ [stringify (.obj
            [("site_id", .str "s1"), ("event_type", .str "pageview"),
             ("path", .str "/"), ("user_id", .null),
             ("timestamp", .str "2025-11-12T10:00:00Z")])],
          .responded ⟨202, [("status", .str "accepted")]⟩⟩) ∧
    (JSValue.str "/" ≠ lookup "path" emptyPathBody) ∧
    (JSValue.null ≠ lookup "user_id" emptyPathBody) ∧
    validateEvent toStringBody = none ∧
    (∀ (stringify : JSValue → String) (queue : List String),
      postEvent stringify true toStringBody queue = ⟨queue, .threw .typeError⟩) := by
  refine ⟨rfl, rfl, rfl, rfl, rfl, ?_, ?_, ?_, rfl, ?_⟩
  · intro stringify queue
    rfl
  · simp [emptyPathBody, lookup]
  · simp [emptyPathBody, lookup]
  · intro stringify queue
    rfl

/-- Claim C8 at an input where the code breaks it: the body `emptyArrayBody`, whose
`site_id` is the empty array, passes validation, because the array is truthy; the handler
then enqueues an event whose `site_id` is the empty string, the string form of that array.
A body that submits the empty string itself is rejected with `site_id is required`, and so
would the queued event be. -/
theorem postEvent_enqueues_empty_site_id :
    validateEvent emptyArrayBody = none ∧
    (∀ (stringify : JSValue → String) (queue : List String),
      postEvent stringify true emptyArrayBody queue =
        ⟨queue ++ [stringify (.obj
            [("site_id", .str ""), ("event_type", .str "pageview"),
             ("path", .str "/"), ("user_id", .null),
             ("timestamp", .str "2025-11-12T10:00:00Z")])],
          .responded ⟨202, [("status", .str "accepted")]⟩⟩) ∧
    lookup "site_id"
        [("site_id", JSValue.str ""), ("event_type", .str "pageview"),
         ("path", .str "/"), ("user_id", .null),
         ("timestamp", .str "2025-11-12T10:00:00Z")] = .str "" ∧
    validateEvent
        [("site_id", .str ""), ("event_type", .str "pageview"),
         ("path", .str "/"), ("user_id", .null),
         ("timestamp", .str "2025-11-12T10:00:00Z")] = some "site_id is required" ∧
    (∀ (stringify : JSValue → String) (queue : List String),
      postEvent stringify true
          [("site_id", .str ""), ("event_type", .str "pageview"),
           ("timestamp", .str "2025-11-12T10:00:00Z")] queue =
        ⟨queue, .responded ⟨400, [("error", .str "site_id is required")]⟩⟩) := by
  refine ⟨rfl, ?_, rfl, rfl, ?_⟩
  · intro stringify queue
    rfl
  · intro stringify queue
    rfl

/-! ## Consumer: order, malformed payloads, timestamps -/

theorem handle_store (env : WorkerEnv) (raw : String) (s : WorkerState) :
    (handle env raw s).store = s.store ∨
      ∃ doc, docOf env raw = some doc ∧ (handle env raw s).store = s.store ++ [doc] := by
  cases hp : env.parse raw with
  | none => exact Or.inl (by simp [handle, hp])
  | some data =>
    cases hd : prepareDoc env.newDate data with
    | error e => exact Or.inl (by simp [handle, hp, hd])
    | ok doc =>
      by_cases hc : env.createOk s.creates doc = true
      · exact Or.inr ⟨doc, by simp [docOf, hp, hd], by simp [handle, hp, hd, hc]⟩
      · exact Or.inl (by simp [handle, hp, hd, hc])

theorem processLoop_append (env : WorkerEnv) (q1 q2 : List String) (s : WorkerState) :
    processLoop env (q1 ++ q2) s = processLoop env q2 (processLoop env q1 s) := by
  induction q1 generalizing s with
  | nil => rfl
  | cons raw rest ih => exact ih (handle env raw s)

theorem processLoop_store_sublist (env : WorkerEnv) (queue : List String) (s : WorkerState) :
    ∃ inserted, (processLoop env queue s).store = s.store ++ inserted ∧
      List.Sublist (inserted.map some) (queue.map (docOf env)) := by
  induction queue generalizing s with
  | nil => exact ⟨[], by simp [processLoop], by simp⟩
  | cons raw rest ih =>
    obtain ⟨ins, hstore, hsub⟩ := ih (handle env raw s)
    rcases handle_store env raw s with h | ⟨doc, hdoc, h⟩
    · refine ⟨ins, ?_, ?_⟩
      · simp only [processLoop, hstore, h]
      · simpa using hsub.cons _
    · refine ⟨doc :: ins, ?_, ?_⟩
      · simp only [processLoop, hstore, h, List.append_assoc, List.singleton_append]
      · simpa [hdoc] using hsub.cons₂ (some doc)

theorem handle_of_doc (env : WorkerEnv) (raw : String) (s : WorkerState) (data : JSValue)
    (doc : Doc) (hp : env.parse raw = some data) (hd : prepareDoc env.newDate data = .ok doc)
    (hc : env.createOk s.creates doc = true) :
    handle env raw s = { s with store := s.store ++ [doc], creates := s.creates + 1 } := by
  simp [handle, hp, hd, hc]

/-- Claim C6: with the queue a list, ingestion appending at the tail and the consumer
taking from the head, if valid events A and then B are appended before any take and both
persist, the loop inserts the record of A and then the record of B, after whatever the
earlier queue items gave; and for every queue the records the loop inserts are, in order, a
subsequence of the records derived from the payloads in the order they were appended. -/
theorem processLoop_fifo (env : WorkerEnv) (stringify : JSValue → String)
    (bodyA bodyB evA evB : JSObject) (docA docB : Doc) (queue : List String) (s : WorkerState)
    (hvA : validateEvent bodyA = none) (hvB : validateEvent bodyB = none)
    (hbA : buildEvent bodyA = .ok evA) (hbB : buildEvent bodyB = .ok evB)
    (hpA : env.parse (stringify (.obj evA)) = some (.obj evA))
    (hpB : env.parse (stringify (.obj evB)) = some (.obj evB))
    (hdA : prepareDoc env.newDate (.obj evA) = .ok docA)
    (hdB : prepareDoc env.newDate (.obj evB) = .ok docB)
    (hcA : ∀ n, env.createOk n docA = true) (hcB : ∀ n, env.createOk n docB = true) :
    (processLoop env
        (postEvent stringify true bodyB (postEvent stringify true bodyA queue).queue).queue s).store
      = (processLoop env queue s).store ++ [docA, docB] ∧
    ∀ (q : List String) (s0 : WorkerState),
      ∃ inserted, (processLoop env q s0).store = s0.store ++ inserted ∧
        List.Sublist (inserted.map some) (q.map (docOf env)) := by
  refine ⟨?_, processLoop_store_sublist env⟩
  have hqA : (postEvent stringify true bodyA queue).queue = queue ++ [stringify (.obj evA)] := by
    simp [postEvent, hvA, hbA]
  have hqB : ∀ q, (postEvent stringify true bodyB q).queue = q ++ [stringify (.obj evB)] := by
    intro q; simp [postEvent, hvB, hbB]
  rw [hqB, hqA, List.append_assoc, processLoop_append]
  simp only [List.singleton_append, processLoop]
  rw [handle_of_doc env _ _ _ docA hpA hdA (hcA _), handle_of_doc env _ _ _ docB hpB hdB (hcB _)]
  simp

theorem processLoop_fifo_witness :
    validateEvent pageviewBody = none ∧ validateEvent clickBody = none ∧
    buildEvent pageviewBody = .ok pageviewEvent ∧ buildEvent clickBody = .ok clickEvent ∧
    ((processLoop sampleEnv
        (postEvent sampleStringify true clickBody
          (postEvent sampleStringify true pageviewBody ["oops"]).queue).queue ⟨[], 0, 0⟩).store
      = (processLoop sampleEnv ["oops"] ⟨[], 0, 0⟩).store ++ [pageviewDoc, clickDoc] ∧
    ∀ (q : List String) (s0 : WorkerState),
      ∃ inserted, (processLoop sampleEnv q s0).store = s0.store ++ inserted ∧
        List.Sublist (inserted.map some) (q.map (docOf sampleEnv))) :=
  ⟨rfl, rfl, rfl, rfl,
   processLoop_fifo sampleEnv sampleStringify pageviewBody clickBody pageviewEvent clickEvent
     pageviewDoc clickDoc ["oops"] ⟨[], 0, 0⟩ rfl rfl rfl rfl rfl rfl rfl rfl
     (fun _ => rfl) (fun _ => rfl)⟩

/-- Claim C7: for a payload that does not parse as JSON, the iteration that takes it
changes nothing in the consumer state (no record inserted, no error pause), leaves the rest
of the queue as it is (the payload is not put back), and the loop goes on with the next
take; wherever the payload stands in the queue, the loop ends in the state it would have
reached without it. -/
theorem handle_invalid_json (env : WorkerEnv) (front rest : List String) (raw : String)
    (s : WorkerState) (h : env.parse raw = none) :
    handle env raw s = s ∧
    iteration env (raw :: rest, s) = some (rest, s) ∧
    processLoop env (raw :: rest) s = processLoop env rest s ∧
    processLoop env (front ++ raw :: rest) s = processLoop env (front ++ rest) s := by
  have hh : ∀ s', handle env raw s' = s' := by intro s'; simp [handle, h]
  refine ⟨hh s, ?_, ?_, ?_⟩
  · simp [iteration, hh]
  · simp [processLoop, hh]
  · rw [processLoop_append, processLoop_append]
    simp [processLoop, hh]

theorem handle_invalid_json_witness :
    sampleEnv.parse "oops" = none ∧
    (handle sampleEnv "oops" ⟨[], 0, 0⟩ = ⟨[], 0, 0⟩ ∧
     iteration sampleEnv ("oops" :: ["B"], ⟨[], 0, 0⟩) = some (["B"], ⟨[], 0, 0⟩) ∧
     processLoop sampleEnv ("oops" :: ["B"]) ⟨[], 0, 0⟩ =
       processLoop sampleEnv ["B"] ⟨[], 0, 0⟩ ∧
     processLoop sampleEnv (["A"] ++ "oops" :: ["B"]) ⟨[], 0, 0⟩ =
       processLoop sampleEnv (["A"] ++ ["B"]) ⟨[], 0, 0⟩) :=
  ⟨rfl, handle_invalid_json sampleEnv ["A"] ["B"] "oops" ⟨[], 0, 0⟩ rfl⟩

/-- Claim C10, as amended: for a queued event that parses as JSON and whose timestamp does
not give a valid point in time, deriving `timestamp` and `date` raises an error: a
`RangeError` from `toISOString` when the `Date` is invalid, otherwise the error thrown by
the `Date` constructor or by the property read. In each case the iteration inserts no
record and takes the error path with its one-second pause. -/
theorem handle_invalid_timestamp (env : WorkerEnv) (raw : String) (data : JSValue)
    (s : WorkerState) (hp : env.parse raw = some data)
    (hinv : ∀ ts t, data.getProp "timestamp" = .ok ts → env.newDate ts ≠ .ok (some t)) :
    (∃ e, prepareDoc env.newDate data = .error e) ∧
    (∀ ts, data.getProp "timestamp" = .ok ts → env.newDate ts = .ok none →
      toISOString none = .error .rangeError ∧
      prepareDoc env.newDate data = .error .rangeError) ∧
    (∀ ts e, data.getProp "timestamp" = .ok ts → env.newDate ts = .error e →
      prepareDoc env.newDate data = .error e) ∧
    (∀ e, data.getProp "timestamp" = .error e → prepareDoc env.newDate data = .error e) ∧
    handle env raw s = { s with backoffs := s.backoffs + 1 } ∧
    (handle env raw s).store = s.store ∧
    (handle env raw s).backoffs = s.backoffs + 1 := by
  have h2 : ∀ ts, data.getProp "timestamp" = .ok ts → env.newDate ts = .ok none →
      prepareDoc env.newDate data = .error .rangeError := by
    intro ts hts hn
    simp [prepareDoc, hts, hn, toISOString, bind, Except.bind]
  have h3 : ∀ ts e, data.getProp "timestamp" = .ok ts → env.newDate ts = .error e →
      prepareDoc env.newDate data = .error e := by
    intro ts e hts hn
    simp [prepareDoc, hts, hn, bind, Except.bind]
  have h4 : ∀ e, data.getProp "timestamp" = .error e →
      prepareDoc env.newDate data = .error e := by
    intro e hts
    simp [prepareDoc, hts, bind, Except.bind]
  have h1 : ∃ e, prepareDoc env.newDate data = .error e := by
    cases hts : data.getProp "timestamp" with
    | error e => exact ⟨e, h4 e hts⟩
    | ok ts =>
      cases hn : env.newDate ts with
      | error e => exact ⟨e, h3 ts e hts hn⟩
      | ok d =>
        cases d with
        | none => exact ⟨_, h2 ts hts hn⟩
        | some t => exact absurd hn (hinv ts t hts)
  obtain ⟨e, he⟩ := h1
  refine ⟨⟨e, he⟩, fun ts hts hn => ⟨rfl, h2 ts hts hn⟩, h3, h4, ?_, ?_, ?_⟩ <;>
    simp [handle, hp, he]

theorem handle_invalid_timestamp_witness :
    sampleEnv.parse "BAD-TIME" = some (.obj badTimestampEvent) ∧
    (∀ ts t, (JSValue.obj badTimestampEvent).getProp "timestamp" = .ok ts →
      sampleEnv.newDate ts ≠ .ok (some t)) ∧
    ((∃ e, prepareDoc sampleEnv.newDate (.obj badTimestampEvent) = .error e) ∧
    (∀ ts, (JSValue.obj badTimestampEvent).getProp "timestamp" = .ok ts →
      sampleEnv.newDate ts = .ok none →
      toISOString none = .error .rangeError ∧
      prepareDoc sampleEnv.newDate (.obj badTimestampEvent) = .error .rangeError) ∧
    (∀ ts e, (JSValue.obj badTimestampEvent).getProp "timestamp" = .ok ts →
      sampleEnv.newDate ts = .error e →
      prepareDoc sampleEnv.newDate (.obj badTimestampEvent) = .error e) ∧
    (∀ e, (JSValue.obj badTimestampEvent).getProp "timestamp" = .error e →
      prepareDoc sampleEnv.newDate (.obj badTimestampEvent) = .error e) ∧
    handle sampleEnv "BAD-TIME" ⟨[pageviewDoc], 0, 1⟩ =
      { (⟨[pageviewDoc], 0, 1⟩ : WorkerState) with
        backoffs := (⟨[pageviewDoc], 0, 1⟩ : WorkerState).backoffs + 1 } ∧
    (handle sampleEnv "BAD-TIME" ⟨[pageviewDoc], 0, 1⟩).store =
      (⟨[pageviewDoc], 0, 1⟩ : WorkerState).store ∧
    (handle sampleEnv "BAD-TIME" ⟨[pageviewDoc], 0, 1⟩).backoffs =
      (⟨[pageviewDoc], 0, 1⟩ : WorkerState).backoffs + 1) :=
  have hinv : ∀ ts t, (JSValue.obj badTimestampEvent).getProp "timestamp" = .ok ts →
      sampleEnv.newDate ts ≠ .ok (some t) := by
    intro ts t hts
    have : ts = .str "not-a-date" := (Except.ok.inj hts).symm
    subst this
    intro h
    cases h
  ⟨rfl, hinv,
   handle_invalid_timestamp sampleEnv "BAD-TIME" (.obj badTimestampEvent)
     ⟨[pageviewDoc], 0, 1⟩ rfl hinv⟩

/-- Claim C10 fails as stated: the payload `BAD-TIME` parses as JSON and its timestamp
is not a date; the `Date` is invalid, deriving the date raises a `RangeError`, and the
iteration ends with one error pause more and nothing inserted. The same happens for the
payload `OBJ-TIME`, where the `Date` constructor itself throws. -/
theorem invalid_timestamp_counterexample :
    sampleParse "BAD-TIME" = some (.obj badTimestampEvent) ∧
    sampleNewDate (lookup "timestamp" badTimestampEvent) = .ok none ∧
    prepareDoc sampleNewDate (.obj badTimestampEvent) = .error .rangeError ∧
    handle sampleEnv "BAD-TIME" ⟨[], 0, 0⟩ = ⟨[], 1, 0⟩ ∧
    sampleParse "OBJ-TIME" = some (.obj objectTimestampEvent) ∧
    prepareDoc sampleNewDate (.obj objectTimestampEvent) = .error .typeError ∧
    handle sampleEnv "OBJ-TIME" ⟨[], 0, 0⟩ = ⟨[], 1, 0⟩ := by
  exact ⟨rfl, rfl, rfl, rfl, rfl, rfl, rfl⟩

/-! ## Consumer: the calendar date of a time value -/

theorem yearFromTime_bracket (t : Int) :
    DayFromYear (YearFromTime t) ≤ Day t ∧ Day t < DayFromYear (YearFromTime t + 1) := by
  unfold YearFromTime
  simp only
  generalize Day t = d
  generalize hq : d * 400 / 146097 = q
  have h1 : 146097 * q ≤ d * 400 := by omega
  have h2 : d * 400 < 146097 * q + 146097 := by omega
  clear hq
  split_ifs with ha hb
  · rw [sub_add_cancel]
    refine ⟨?_, ha⟩
    unfold DayFromYear at ha ⊢
    omega
  · refine ⟨hb, ?_⟩
    unfold DayFromYear at ha hb ⊢
    omega
  · exact ⟨not_lt.mp ha, not_le.mp hb⟩

theorem dayFromYear_succ (y : Int) : DayFromYear (y + 1) = DayFromYear y + DaysInYear y := by
  unfold DayFromYear DaysInYear
  split_ifs <;> omega

theorem yearFromTime_range (t : Int) (hlo : -62167219200000 ≤ t) (hhi : t < 253402300800000) :
    0 ≤ YearFromTime t ∧ YearFromTime t ≤ 9999 := by
  have hb := yearFromTime_bracket t
  have hd : -719528 ≤ Day t ∧ Day t < 2932897 := by
    unfold Day msPerDay; constructor <;> omega
  generalize YearFromTime t = y at hb ⊢
  unfold DayFromYear at hb
  constructor <;> omega

theorem dayWithinYear_range (t : Int) :
    0 ≤ DayWithinYear t ∧ DayWithinYear t < 365 + InLeapYear t := by
  have hb := yearFromTime_bracket t
  rw [dayFromYear_succ] at hb
  unfold DayWithinYear InLeapYear
  have : DaysInYear (YearFromTime t) = 365 ∨ DaysInYear (YearFromTime t) = 366 := by
    unfold DaysInYear; split_ifs <;> simp
  rcases this with h | h <;> simp only [h] <;> constructor <;> simp <;> omega

theorem monthFromTime_cases (t : Int) :
    ∃ k : Nat, k ≤ 11 ∧ MonthFromTime t = k ∧
      DateFromTime t = DayWithinYear t - daysBeforeMonth (YearFromTime t) k + 1 ∧
      daysBeforeMonth (YearFromTime t) k ≤ DayWithinYear t ∧
      DayWithinYear t < daysBeforeMonth (YearFromTime t) k + daysInMonth (YearFromTime t) k := by
  have hr := dayWithinYear_range t
  have hl : InLeapYear t = 0 ∧ DaysInYear (YearFromTime t) ≠ 366 ∨
      InLeapYear t = 1 ∧ DaysInYear (YearFromTime t) = 366 := by
    unfold InLeapYear; split_ifs with h
    · exact Or.inr ⟨rfl, h⟩
    · exact Or.inl ⟨rfl, h⟩
  have hfin : ∀ k : Nat, k ≤ 11 → MonthFromTime t = k →
      DateFromTime t = DayWithinYear t - daysBeforeMonth (YearFromTime t) k + 1 := by
    intro k hk hm
    unfold DateFromTime
    rw [hm]
    interval_cases k <;> rcases hl with ⟨h0, hy⟩ | ⟨h1, hy⟩ <;>
      simp [daysBeforeMonth, daysInMonth, hy, *] <;> omega
  have hbefore : ∀ k : Nat, k ≤ 11 →
      daysBeforeMonth (YearFromTime t) k =
        [0, 31, 59 + InLeapYear t, 90 + InLeapYear t, 120 + InLeapYear t, 151 + InLeapYear t,
         181 + InLeapYear t, 212 + InLeapYear t, 243 + InLeapYear t, 273 + InLeapYear t,
         304 + InLeapYear t, 334 + InLeapYear t].getD k 0 ∧
      daysBeforeMonth (YearFromTime t) k + daysInMonth (YearFromTime t) k =
        [31, 59 + InLeapYear t, 90 + InLeapYear t, 120 + InLeapYear t, 151 + InLeapYear t,
         181 + InLeapYear t, 212 + InLeapYear t, 243 + InLeapYear t, 273 + InLeapYear t,
         304 + InLeapYear t, 334 + InLeapYear t, 365 + InLeapYear t].getD k 0 := by
    intro k hk
    interval_cases k <;> rcases hl with ⟨h0, hy⟩ | ⟨h1, hy⟩ <;>
      simp [daysBeforeMonth, daysInMonth, hy, *]
  by_cases c0 : DayWithinYear t < 31
  · have hm : MonthFromTime t = (0 : Nat) := by simp [MonthFromTime, c0]
    have hb := hbefore 0 (by omega)
    simp only [List.getD_cons_zero, List.getD_cons_succ] at hb
    exact ⟨0, by omega, hm, hfin 0 (by omega) hm, by omega, by omega⟩
  by_cases c1 : DayWithinYear t < 59 + InLeapYear t
  · have hm : MonthFromTime t = (1 : Nat) := by simp [MonthFromTime, c0, c1]
    have hb := hbefore 1 (by omega)
    simp only [List.getD_cons_zero, List.getD_cons_succ] at hb
    exact ⟨1, by omega, hm, hfin 1 (by omega) hm, by omega, by omega⟩
  by_cases c2 : DayWithinYear t < 90 + InLeapYear t
  · have hm : MonthFromTime t = (2 : Nat) := by simp [MonthFromTime, c0, c1, c2]
    have hb := hbefore 2 (by omega)
    simp only [List.getD_cons_zero, List.getD_cons_succ] at hb
    exact ⟨2, by omega, hm, hfin 2 (by omega) hm, by omega, by omega⟩
  by_cases c3 : DayWithinYear t < 120 + InLeapYear t
  · have hm : MonthFromTime t = (3 : Nat) := by simp [MonthFromTime, c0, c1, c2, c3]
    have hb := hbefore 3 (by omega)
    simp only [List.getD_cons_zero, List.getD_cons_succ] at hb
    exact ⟨3, by omega, hm, hfin 3 (by omega) hm, by omega, by omega⟩
  by_cases c4 : DayWithinYear t < 151 + InLeapYear t
  · have hm : MonthFromTime t = (4 : Nat) := by simp [MonthFromTime, c0, c1, c2, c3, c4]
    have hb := hbefore 4 (by omega)
    simp only [List.getD_cons_zero, List.getD_cons_succ] at hb
    exact ⟨4, by omega, hm, hfin 4 (by omega) hm, by omega, by omega⟩
  by_cases c5 : DayWithinYear t < 181 + InLeapYear t
  · have hm : MonthFromTime t = (5 : Nat) := by simp [MonthFromTime, c0, c1, c2, c3, c4, c5]
    have hb := hbefore 5 (by omega)
    simp only [List.getD_cons_zero, List.getD_cons_succ] at hb
    exact ⟨5, by omega, hm, hfin 5 (by omega) hm, by omega, by omega⟩
  by_cases c6 : DayWithinYear t < 212 + InLeapYear t
  · have hm : MonthFromTime t = (6 : Nat) := by simp [MonthFromTime, c0, c1, c2, c3, c4, c5, c6]
    have hb := hbefore 6 (by omega)
    simp only [List.getD_cons_zero, List.getD_cons_succ] at hb
    exact ⟨6, by omega, hm, hfin 6 (by omega) hm, by omega, by omega⟩
  by_cases c7 : DayWithinYear t < 243 + InLeapYear t
  · have hm : MonthFromTime t = (7 : Nat) := by simp [MonthFromTime, c0, c1, c2, c3, c4, c5, c6, c7]
    have hb := hbefore 7 (by omega)
    simp only [List.getD_cons_zero, List.getD_cons_succ] at hb
    exact ⟨7, by omega, hm, hfin 7 (by omega) hm, by omega, by omega⟩
  by_cases c8 : DayWithinYear t < 273 + InLeapYear t
  · have hm : MonthFromTime t = (8 : Nat) := by simp [MonthFromTime, c0, c1, c2, c3, c4, c5, c6, c7, c8]
    have hb := hbefore 8 (by omega)
    simp only [List.getD_cons_zero, List.getD_cons_succ] at hb
    exact ⟨8, by omega, hm, hfin 8 (by omega) hm, by omega, by omega⟩
  by_cases c9 : DayWithinYear t < 304 + InLeapYear t
  · have hm : MonthFromTime t = (9 : Nat) := by simp [MonthFromTime, c0, c1, c2, c3, c4, c5, c6, c7, c8, c9]
    have hb := hbefore 9 (by omega)
    simp only [List.getD_cons_zero, List.getD_cons_succ] at hb
    exact ⟨9, by omega, hm, hfin 9 (by omega) hm, by omega, by omega⟩
  by_cases c10 : DayWithinYear t < 334 + InLeapYear t
  · have hm : MonthFromTime t = (10 : Nat) := by simp [MonthFromTime, c0, c1, c2, c3, c4, c5, c6, c7, c8, c9, c10]
    have hb := hbefore 10 (by omega)
    simp only [List.getD_cons_zero, List.getD_cons_succ] at hb
    exact ⟨10, by omega, hm, hfin 10 (by omega) hm, by omega, by omega⟩
  have hm : MonthFromTime t = (11 : Nat) := by simp [MonthFromTime, c0, c1, c2, c3, c4, c5, c6, c7, c8, c9, c10]
  have hb := hbefore 11 (by omega)
  simp only [List.getD_cons_zero, List.getD_cons_succ] at hb
  exact ⟨11, by omega, hm, hfin 11 (by omega) hm, by omega, by omega⟩

theorem month_date_valid (t : Int) :
    0 ≤ MonthFromTime t ∧ MonthFromTime t ≤ 11 ∧
    1 ≤ DateFromTime t ∧ DateFromTime t ≤ daysInMonth (YearFromTime t) (MonthFromTime t) ∧
    Day t = DayFromYear (YearFromTime t) +
      daysBeforeMonth (YearFromTime t) (MonthFromTime t).toNat + (DateFromTime t - 1) := by
  obtain ⟨k, hk, hm, hd, h1, h2⟩ := monthFromTime_cases t
  have hday : Day t = DayFromYear (YearFromTime t) + DayWithinYear t := by
    unfold DayWithinYear; omega
  rw [hm, hd, hday, Int.toNat_ofNat]
  refine ⟨by omega, by omega, by omega, by omega, by omega⟩

theorem digits_length (w n : Nat) : (digits w n).length = w := by
  induction w generalizing n with
  | zero => rfl
  | succ w ih => simp [digits, ih]

theorem digitChar_isDigit (n : Nat) : (digitChar n).isDigit = true := by
  unfold digitChar
  have h : n % 10 < 10 := Nat.mod_lt _ (by decide)
  interval_cases n % 10 <;> decide

theorem isoChars_take_ten (t : Int) (hy : 0 ≤ YearFromTime t ∧ YearFromTime t ≤ 9999) :
    (isoChars t).take 10 =
      digits 4 (YearFromTime t).toNat ++ '-' :: digits 2 (MonthFromTime t + 1).toNat ++
        '-' :: digits 2 (DateFromTime t).toNat := by
  unfold isoChars yearChars
  rw [if_pos hy]
  simp only [List.append_assoc, List.singleton_append, List.cons_append]
  have hlen : (digits 4 (YearFromTime t).toNat ++ '-' :: (digits 2 (MonthFromTime t + 1).toNat ++
        '-' :: digits 2 (DateFromTime t).toNat)).length = 10 := by
    simp [digits_length]
  have := @List.take_left' Char _ ('T' :: (digits 2 (HourFromTime t).toNat ++ ':' ::
      (digits 2 (MinFromTime t).toNat ++ ':' :: (digits 2 (SecFromTime t).toNat ++ '.' ::
      (digits 3 (msFromTime t).toNat ++ ['Z']))))) 10 hlen
  simpa only [List.append_assoc, List.singleton_append, List.cons_append] using this

theorem isYYYYMMDD_digits (y m d : Nat) :
    isYYYYMMDD (String.mk (digits 4 y ++ '-' :: digits 2 m ++ '-' :: digits 2 d)) = true := by
  simp [isYYYYMMDD, digits, digitChar_isDigit]

/-- Within the years 0 to 9999 the derived date is the calendar date: for a normalized
queued event whose timestamp gives a time value `t` in that range, the document the consumer
prepares has `t` as `timestamp`, carries `site_id`, `event_type`, `path` and `user_id` over
unchanged, and has as `date` the ten characters `YYYY-MM-DD` of the UTC calendar date of
`t`: the year is the largest one starting on or before the day of `t`, the month is
between 1 and 12, the day between 1 and the length of that month, and year, month and day
add up to the day number of `t`. -/
theorem prepareDoc_date_in_range (newDate : JSValue → Except JSError JSDate)
    (fields : JSObject) (t : Int)
    (hts : newDate (lookup "timestamp" fields) = .ok (some t))
    (hlo : -62167219200000 ≤ t) (hhi : t < 253402300800000)
    (hpath : (lookup "path" fields).truthy = true)
    (huid : (lookup "user_id" fields).truthy = true ∨ lookup "user_id" fields = .null) :
    ∃ date : String,
      prepareDoc newDate (.obj fields) = .ok
        { site_id := lookup "site_id" fields,
          event_type := lookup "event_type" fields,
          path := lookup "path" fields,
          user_id := lookup "user_id" fields,
          timestamp := some t,
          date := date } ∧
      date = String.mk (digits 4 (YearFromTime t).toNat ++ '-' ::
        digits 2 (MonthFromTime t + 1).toNat ++ '-' :: digits 2 (DateFromTime t).toNat) ∧
      date.length = 10 ∧ isYYYYMMDD date = true ∧
      (0 ≤ YearFromTime t ∧ YearFromTime t ≤ 9999) ∧
      (1 ≤ MonthFromTime t + 1 ∧ MonthFromTime t + 1 ≤ 12) ∧
      (1 ≤ DateFromTime t ∧
        DateFromTime t ≤ daysInMonth (YearFromTime t) (MonthFromTime t)) ∧
      Day t = DayFromYear (YearFromTime t) +
        daysBeforeMonth (YearFromTime t) (MonthFromTime t).toNat + (DateFromTime t - 1) ∧
      (∀ y, DayFromYear y ≤ Day t → y ≤ YearFromTime t) := by
  have hy := yearFromTime_range t hlo hhi
  obtain ⟨hm0, hm11, hd1, hdmax, hday⟩ := month_date_valid t
  have hpo : (lookup "path" fields).or (.str "/") = lookup "path" fields := by
    simp [JSValue.or, hpath]
  have huo : (lookup "user_id" fields).or .null = lookup "user_id" fields := by
    rcases huid with h | h
    · simp [JSValue.or, h]
    · rw [h]; rfl
  refine ⟨_, ?_, rfl, ?_, isYYYYMMDD_digits _ _ _, hy, ⟨by omega, by omega⟩, ⟨hd1, hdmax⟩,
    hday, ?_⟩
  · simp only [prepareDoc, getProp, hts, toISOString, slice, bind, Except.bind, pure,
      Except.pure, hpo, huo, List.drop_zero, Nat.sub_zero, isoChars_take_ten t hy]
  · simp [String.length, digits_length]
  · intro y hyd
    by_contra hlt
    push_neg at hlt
    have hb := (yearFromTime_bracket t).2
    have hmono : DayFromYear (YearFromTime t + 1) ≤ DayFromYear y := by
      have h1 : YearFromTime t + 1 ≤ y := by omega
      generalize YearFromTime t + 1 = z at h1
      unfold DayFromYear
      omega
    omega

/-- Claim C9 at an input where the code breaks it: the payload `Y10K` decodes to an event
whose timestamp is the valid instant 253402300800000, the first of January of the year
10000. The consumer inserts a document whose `date` is the text `+010000-01`, which is not
of the form `YYYY-MM-DD` and has lost the day of the month. The payload `A`, of the year
2025, gives the date `2025-11-12`. -/
theorem handle_date_year_10000 :
    sampleParse "Y10K" = some (.obj year10000Event) ∧
    sampleNewDate (lookup "timestamp" year10000Event) = .ok (some 253402300800000) ∧
    toISOString (some 253402300800000) = .ok "+010000-01-01T00:00:00.000Z" ∧
    prepareDoc sampleNewDate (.obj year10000Event) = .ok
      { site_id := .str "s1", event_type := .str "pageview", path := .str "/",
        user_id := .null, timestamp := some 253402300800000, date := "+010000-01" } ∧
    handle sampleEnv "Y10K" ⟨[], 0, 0⟩ =
      ⟨[{ site_id := .str "s1", event_type := .str "pageview", path := .str "/",
          user_id := .null, timestamp := some 253402300800000, date := "+010000-01" }],
        0, 1⟩ ∧
    isYYYYMMDD "+010000-01" = false ∧
    YearFromTime 253402300800000 = 10000 ∧ MonthFromTime 253402300800000 + 1 = 1 ∧
    DateFromTime 253402300800000 = 1 ∧
    handle sampleEnv "A" ⟨[], 0, 0⟩ = ⟨[pageviewDoc], 0, 1⟩ ∧
    pageviewDoc.date = "2025-11-12" ∧ isYYYYMMDD pageviewDoc.date = true := by
  refine ⟨rfl, rfl, rfl, rfl, rfl, rfl, ?_, ?_, ?_, rfl, rfl, rfl⟩ <;> decide

/-! ## Reporting -/

/-- Claim C3: for a non-empty `site_id`, whatever the store holds, `GET /stats` answers
200 with `total_views` equal to the number of stored records whose `site_id` equals the
requested one and, when a date is supplied, whose `date` equals the supplied one; without
a date (the parameter absent or empty) the count ranges over all dates of the site and the
`date` field of the response is null. -/
theorem getStats_total_views (tie : Option String → Nat) (site : String) (date : Option String)
    (store : List EventRecord) (hs : site ≠ "") :
    ∃ body, getStats true tie (some site) date store = .json 200 body ∧
      body.site_id = site ∧
      (∀ d, date = some d → d ≠ "" →
        body.date = some d ∧
        body.total_views = store.countP (fun r => decide (r.site_id = site ∧ r.date = some d))) ∧
      (date = none ∨ date = some "" →
        body.date = none ∧
        body.total_views = store.countP (fun r => decide (r.site_id = site))) := by
  let m : Match := { site_id := site, date := if paramTruthy date then date else none }
  refine ⟨{ site_id := site,
            date := if paramTruthy date then date else none,
            total_views := totalViewsPromise m store,
            unique_users := uniqueUsersPromise m store,
            top_paths := topPathsPromise tie m store }, ?_, ?_, ?_, ?_⟩
  · simp [getStats, hs, m]
  · rfl
  · intro d hd hne
    subst hd
    refine ⟨by simp [paramTruthy, hne], ?_⟩
    have hp : paramTruthy (some d) = true := by simp [paramTruthy, hne]
    simp only [m, totalViewsPromise, countDocuments, hp, if_true, List.countP_eq_length_filter]
    congr 1
    apply List.filter_congr
    intro r _
    by_cases h1 : r.site_id = site <;> by_cases h2 : r.date = some d <;>
      simp [Match.matches, h1, h2]
  · intro hd
    have hp : paramTruthy date = false := by
      rcases hd with h | h <;> subst h <;> simp [paramTruthy]
    refine ⟨by simp [hp], ?_⟩
    simp only [m, totalViewsPromise, countDocuments, hp, List.countP_eq_length_filter]
    congr 1
    apply List.filter_congr
    intro r _
    by_cases h1 : r.site_id = site <;> simp [Match.matches, h1]

theorem getStats_total_views_witness :
    ("s1" : String) ≠ "" ∧
    ∃ body, getStats true (fun _ => 0) (some "s1") (some "2025-11-12")
        (viewsByUsers [some "u1", none]) = .json 200 body ∧
      body.site_id = "s1" ∧
      (∀ d, some "2025-11-12" = some d → d ≠ "" →
        body.date = some d ∧
        body.total_views = (viewsByUsers [some "u1", none]).countP
          (fun r => decide (r.site_id = "s1" ∧ r.date = some d))) ∧
      ((some "2025-11-12" : Option String) = none ∨ some "2025-11-12" = some "" →
        body.date = none ∧
        body.total_views = (viewsByUsers [some "u1", none]).countP
          (fun r => decide (r.site_id = "s1"))) :=
  ⟨by decide,
   getStats_total_views (fun _ => 0) "s1" (some "2025-11-12")
     (viewsByUsers [some "u1", none]) (by decide)⟩

/-- Claim C4 at a store the code counts wrongly: the user ids `u1, u1, u2, null, null`
of the specification give 2 unique users, but a stored record whose `user_id` is the empty
string is counted as a user: with it the same records give 3, and alone it gives 1. -/
theorem uniqueUsers_counts_empty_user_id :
    uniqueUsersPromise ⟨"s1", some "2025-11-12"⟩
        (viewsByUsers [some "u1", some "u1", some "u2", none, none]) = 2 ∧
    uniqueUsersPromise ⟨"s1", some "2025-11-12"⟩
        (viewsByUsers [some "u1", some "u1", some "u2", none, none, some ""]) = 3 ∧
    uniqueUsersPromise ⟨"s1", none⟩ (viewsByUsers [some ""]) = 1 := by
  decide

theorem count_path_eq_countP (rs : List EventRecord) (p : Option String) :
    (rs.map (fun r => r.path)).count p = rs.countP (fun r => decide (r.path = p)) := by
  induction rs with
  | nil => rfl
  | cons r rest ih =>
    by_cases h : r.path = p <;> simp [List.count_cons, List.countP_cons, h, ih]

theorem mem_groupByPath (tie : Option String → Nat) (rs : List EventRecord) (e : PathViews) :
    e ∈ groupByPath tie rs ↔
      e.path ∈ rs.map (fun r => r.path) ∧ e.views = (rs.map (fun r => r.path)).count e.path := by
  unfold groupByPath
  rw [(List.perm_insertionSort _ _).mem_iff]
  simp only [List.mem_map, List.mem_dedup]
  constructor
  · rintro ⟨p, ⟨r, hr, rfl⟩, rfl⟩
    exact ⟨⟨r, hr, rfl⟩, rfl⟩
  · rintro ⟨⟨r, hr, hp⟩, hv⟩
    refine ⟨e.path, ⟨r, hr, hp⟩, ?_⟩
    cases e
    simp only at hv ⊢
    rw [hv]

theorem groupByPath_paths_perm (tie : Option String → Nat) (rs : List EventRecord) :
    ((groupByPath tie rs).map (fun e => e.path)).Perm (rs.map (fun r => r.path)).dedup := by
  unfold groupByPath
  refine ((List.perm_insertionSort _ _).map _).trans ?_
  rw [List.map_map]
  have : ((fun e : PathViews => e.path) ∘
      fun p => (⟨p, (rs.map (fun r => r.path)).count p⟩ : PathViews)) = id := by
    funext p; rfl
  rw [this, List.map_id]

theorem sortByViewsDesc_sorted (gs : List PathViews) :
    (sortByViewsDesc gs).Pairwise (fun a b => a.views ≥ b.views) := by
  haveI : IsTotal PathViews (fun a b => a.views ≥ b.views) := ⟨fun a b => Nat.le_total _ _⟩
  haveI : IsTrans PathViews (fun a b => a.views ≥ b.views) :=
    ⟨fun a b c hab hbc => Nat.le_trans hbc hab⟩
  exact List.sorted_insertionSort _ gs

theorem topPaths_example (tie : Option String → Nat) :
    topPathsPromise tie ⟨"s1", some "2025-11-12"⟩ (viewsOfPaths ["/a", "/a", "/a", "/b", "/b", "/c"]) =
      [⟨some "/a", 3⟩, ⟨some "/b", 2⟩, ⟨some "/c", 1⟩] := by
  have hf : (viewsOfPaths ["/a", "/a", "/a", "/b", "/b", "/c"]).filter
      (Match.matches ⟨"s1", some "2025-11-12"⟩) =
      viewsOfPaths ["/a", "/a", "/a", "/b", "/b", "/c"] := by rfl
  set S := sortByViewsDesc (groupByPath tie (viewsOfPaths ["/a", "/a", "/a", "/b", "/b", "/c"]))
    with hS
  have hperm : S.Perm [⟨some "/a", 3⟩, ⟨some "/b", 2⟩, ⟨some "/c", 1⟩] := by
    refine (List.perm_insertionSort _ _).trans ?_
    unfold groupByPath
    refine (List.perm_insertionSort _ _).trans ?_
    exact List.Perm.of_eq (by decide)
  have hviews : S.map (fun e => e.views) = [3, 2, 1] := by
    refine List.eq_of_perm_of_sorted (hperm.map _) (r := (· ≥ ·)) ?_ (by decide)
    exact (List.pairwise_map).mpr (sortByViewsDesc_sorted _)
  have hrec : S.map (fun e => exampleGroup e.views) = S := by
    conv_rhs => rw [← List.map_id S]
    apply List.map_congr_left
    intro e he
    have := hperm.mem_iff.mp he
    simp only [List.mem_cons, List.mem_singleton, List.mem_nil_iff, or_false] at this
    rcases this with rfl | rfl | rfl <;> rfl
  have hlen : S.length = 3 := hperm.length_eq
  unfold topPathsPromise
  rw [hf, ← hS, List.take_of_length_le (by omega), ← hrec]
  have hcomp : S.map (fun e => exampleGroup e.views) =
      (S.map (fun e => e.views)).map exampleGroup := by
    rw [List.map_map]; rfl
  rw [hcomp, hviews]
  rfl

theorem topPathsPromise_pipeline (tie : Option String → Nat) (m : Match) (store : List EventRecord) :
    (topPathsPromise tie m store).length ≤ 10 ∧
    (topPathsPromise tie m store).length =
      min 10 (((store.filter m.matches).map (fun r => r.path)).dedup.length) ∧
    ((topPathsPromise tie m store).map (fun e => e.path)).Nodup ∧
    (∀ e ∈ topPathsPromise tie m store,
      e.views = (store.filter m.matches).countP (fun r => decide (r.path = e.path)) ∧
      1 ≤ e.views) ∧
    (topPathsPromise tie m store).Pairwise (fun a b => a.views ≥ b.views) ∧
    (∀ r ∈ store.filter m.matches, r.path ∉ (topPathsPromise tie m store).map (fun e => e.path) →
      ∀ e ∈ topPathsPromise tie m store,
        (store.filter m.matches).countP (fun r' => decide (r'.path = r.path)) ≤ e.views) := by
  have hperm : (sortByViewsDesc (groupByPath tie (store.filter m.matches))).Perm
      (groupByPath tie (store.filter m.matches)) := List.perm_insertionSort _ _
  have hsorted := sortByViewsDesc_sorted (groupByPath tie (store.filter m.matches))
  have hmem : ∀ e ∈ topPathsPromise tie m store, e ∈ groupByPath tie (store.filter m.matches) :=
    fun e he => hperm.mem_iff.mp (List.mem_of_mem_take he)
  have hnodup : ((sortByViewsDesc (groupByPath tie (store.filter m.matches))).map
      (fun e => e.path)).Nodup :=
    ((hperm.map _).trans (groupByPath_paths_perm tie _)).nodup_iff.mpr (List.nodup_dedup _)
  refine ⟨?_, ?_, ?_, ?_, ?_, ?_⟩
  · exact List.length_take_le _ _
  · unfold topPathsPromise
    rw [List.length_take, hperm.length_eq, ← (groupByPath_paths_perm tie _).length_eq,
      List.length_map]
  · unfold topPathsPromise
    rw [List.map_take]
    exact hnodup.sublist (List.take_sublist _ _)
  · intro e he
    have h := (mem_groupByPath tie _ e).mp (hmem e he)
    rw [count_path_eq_countP] at h
    refine ⟨h.2, ?_⟩
    rw [h.2, ← count_path_eq_countP]
    exact List.count_pos_iff.mpr h.1
  · exact hsorted.sublist (List.take_sublist _ _)
  · intro r hr hnot e he
    set S := sortByViewsDesc (groupByPath tie (store.filter m.matches)) with hS
    set c := (store.filter m.matches).countP (fun r' => decide (r'.path = r.path)) with hc
    have hg : (⟨r.path, c⟩ : PathViews) ∈ S := by
      rw [hperm.mem_iff, mem_groupByPath]
      exact ⟨List.mem_map.mpr ⟨r, hr, rfl⟩, by rw [count_path_eq_countP]⟩
    have hsplit : S = S.take 10 ++ S.drop 10 := (List.take_append_drop 10 S).symm
    have hdrop : (⟨r.path, c⟩ : PathViews) ∈ S.drop 10 := by
      rw [hsplit, List.mem_append] at hg
      rcases hg with h | h
      · exact absurd (List.mem_map.mpr ⟨_, h, rfl⟩) hnot
      · exact h
    rw [hsplit, List.pairwise_append] at hsorted
    exact hsorted.2.2 e he _ hdrop


theorem filter_matches_eq_matchingRecords (site : String) (date : Option String)
    (store : List EventRecord) :
    store.filter (Match.matches
        { site_id := site, date := if paramTruthy date then date else none }) =
      matchingRecords site date store := by
  unfold matchingRecords
  apply List.filter_congr
  intro r _
  cases date with
  | none => by_cases h1 : r.site_id = site <;> simp [Match.matches, paramTruthy, h1]
  | some d =>
    by_cases hd : d = ""
    · by_cases h1 : r.site_id = site <;> simp [Match.matches, paramTruthy, hd, h1]
    · by_cases h1 : r.site_id = site <;> by_cases h2 : r.date = some d <;>
        simp [Match.matches, paramTruthy, hd, h1, h2]

/-- Claim C5: for a non-empty `site_id`, whatever the store holds, whatever the optional
date and whatever order the store gives to groups of equal size, `GET /stats` answers 200
with a `top_paths` computed over the records that match the request: it has at most 10
entries (exactly as many as there are distinct paths among the matching records, capped at
10), its paths are pairwise distinct, the views of each entry is the number of matching
records with that path, the entries are in non-increasing order of views, and a path of a
matching record that is left out has no more matching records than any listed path; the
paths `/a, /a, /a, /b, /b, /c` give `/a` 3, `/b` 2, `/c` 1. -/
theorem getStats_top_paths (tie : Option String → Nat) (site : String) (date : Option String)
    (store : List EventRecord) (hs : site ≠ "") :
    ∃ body, getStats true tie (some site) date store = .json 200 body ∧
      body.top_paths.length ≤ 10 ∧
      body.top_paths.length =
        min 10 (((matchingRecords site date store).map (fun r => r.path)).dedup.length) ∧
      (body.top_paths.map (fun e => e.path)).Nodup ∧
      (∀ e ∈ body.top_paths,
        e.views = (matchingRecords site date store).countP (fun r => decide (r.path = e.path)) ∧
        1 ≤ e.views) ∧
      body.top_paths.Pairwise (fun a b => a.views ≥ b.views) ∧
      (∀ r ∈ matchingRecords site date store,
        r.path ∉ body.top_paths.map (fun e => e.path) →
        ∀ e ∈ body.top_paths,
          (matchingRecords site date store).countP (fun r' => decide (r'.path = r.path)) ≤
            e.views) ∧
      (∀ tie', ∃ b, getStats true tie' (some "s1") (some "2025-11-12")
          (viewsOfPaths ["/a", "/a", "/a", "/b", "/b", "/c"]) = .json 200 b ∧
        b.top_paths = [⟨some "/a", 3⟩, ⟨some "/b", 2⟩, ⟨some "/c", 1⟩]) := by
  let m : Match := { site_id := site, date := if paramTruthy date then date else none }
  have hpipe := topPathsPromise_pipeline tie m store
  rw [show store.filter m.matches = matchingRecords site date store from
    filter_matches_eq_matchingRecords site date store] at hpipe
  refine ⟨{ site_id := site,
            date := if paramTruthy date then date else none,
            total_views := totalViewsPromise m store,
            unique_users := uniqueUsersPromise m store,
            top_paths := topPathsPromise tie m store }, ?_, hpipe.1, hpipe.2.1, hpipe.2.2.1,
          hpipe.2.2.2.1, hpipe.2.2.2.2.1, hpipe.2.2.2.2.2, ?_⟩
  · simp [getStats, hs, m]
  · intro tie'
    refine ⟨_, rfl, ?_⟩
    exact topPaths_example tie'

theorem getStats_top_paths_witness :
    ("s1" : String) ≠ "" ∧
    ∃ body, getStats true (fun _ => 0) (some "s1") (some "2025-11-12")
        (viewsOfPaths ["/c", "/a", "/b", "/a"]) = .json 200 body ∧
      body.top_paths.length ≤ 10 ∧
      body.top_paths.length =
        min 10 (((matchingRecords "s1" (some "2025-11-12")
          (viewsOfPaths ["/c", "/a", "/b", "/a"])).map (fun r => r.path)).dedup.length) ∧
      (body.top_paths.map (fun e => e.path)).Nodup ∧
      (∀ e ∈ body.top_paths,
        e.views = (matchingRecords "s1" (some "2025-11-12")
          (viewsOfPaths ["/c", "/a", "/b", "/a"])).countP
            (fun r => decide (r.path = e.path)) ∧
        1 ≤ e.views) ∧
      body.top_paths.Pairwise (fun a b => a.views ≥ b.views) ∧
      (∀ r ∈ matchingRecords "s1" (some "2025-11-12") (viewsOfPaths ["/c", "/a", "/b", "/a"]),
        r.path ∉ body.top_paths.map (fun e => e.path) →
        ∀ e ∈ body.top_paths,
          (matchingRecords "s1" (some "2025-11-12")
            (viewsOfPaths ["/c", "/a", "/b", "/a"])).countP
              (fun r' => decide (r'.path = r.path)) ≤ e.views) ∧
      (∀ tie', ∃ b, getStats true tie' (some "s1") (some "2025-11-12")
          (viewsOfPaths ["/a", "/a", "/a", "/b", "/b", "/c"]) = .json 200 b ∧
        b.top_paths = [⟨some "/a", 3⟩, ⟨some "/b", 2⟩, ⟨some "/c", 1⟩]) :=
  ⟨by decide,
   getStats_top_paths (fun _ => 0) "s1" (some "2025-11-12")
     (viewsOfPaths ["/c", "/a", "/b", "/a"]) (by decide)⟩

end Analytics
